import Mathlib

/-!
Shallow embedding of src/runtime_src/core/pcie/tools/xbmgmt/cmd_hotplug.cpp.

The pseudo-filesystem, the device-handle collaborator (pcidev::get_dev,
sysfs_get/sysfs_put, bdf2index) and the operator confirmation prompt are
external collaborators; they are modelled as environment records whose fields
give the outcome of each external call.  The functions of the translation
return, besides the C return code (an Int, 0 for success and a negated errno
value for failure), the ordered list of observable side effects (attribute
writes, attribute reads, opens, sleeps) that the call performs, so that
claims about which operations were attempted can be stated over that trace.
-/

namespace Hotplug

/-- The constant XILINX_VENDOR ("0x10ee") from the source. -/
def XILINX_VENDOR : String := "0x10ee"

/-- The constant XILINX_US ("0x9134") from the source. -/
def XILINX_US : String := "0x9134"

/-- The constant POLL_TIMEOUT (60) from the source. -/
def POLL_TIMEOUT : Nat := 60

/-- Linux errno value EINVAL. -/
def EINVAL : Int := 22

/-- Linux errno value ENOENT. -/
def ENOENT : Int := 2

/-- Linux errno value ECANCELED. -/
def ECANCELED : Int := 125

/-- Linux errno value ETIMEDOUT. -/
def ETIMEDOUT : Int := 110

/-- Observable side effects performed against the pseudo-filesystem (and the
one-second sleeps of the poll loop), in program order. -/
inductive Event
  | sleepOne
  | putShutdown
  | getShutdown (iter : Nat)
  | putRemove (is_userpf : Bool)
  | openAttr (path : String)
  | putRescan (path : String)
  deriving DecidableEq

/-- Outcome of one sysfs_get call of the shutdown status: either the errmsg
out-parameter came back non-empty, or an integer value was read. -/
inductive ReadRes
  | err
  | ok (v : Int)
  deriving DecidableEq

/-- The view of one resolved device handle (one pcidev::get_dev result) that
shutdownDevice and removeDevice consume: whether the shutdown attribute path
exists, whether the sysfs_put of "1" to shutdown fills errmsg, the outcome of
the i-th shutdown status sysfs_get (i counted from 0), and whether the
sysfs_put of "1" to remove fills errmsg. -/
structure DevView where
  shutdownExists : Bool
  shutdownPutFails : Bool
  shutdownGet : Nat → ReadRes
  removePutFails : Bool

/-- The do-while poll loop of shutdownDevice.  The C loop body runs with
wait = 0, 1, ..., and the loop condition is (++wait < POLL_TIMEOUT), so the
body executes at most POLL_TIMEOUT times; fuel is the number of body
executions still allowed and iter the 0-based index of the current one.
Each body execution sleeps 1 second and reads the shutdown status; errmsg
non-empty returns -EINVAL, a status of exactly 1 returns 0, anything else
continues; exhausting the budget returns -ETIMEDOUT. -/
def shutdownPollLoop (d : DevView) : Nat → Nat → Int × List Event
  | _, 0 => (-ETIMEDOUT, [])
  | iter, fuel + 1 =>
    match d.shutdownGet iter with
    | ReadRes.err => (-EINVAL, [Event.sleepOne, Event.getShutdown iter])
    | ReadRes.ok v =>
      if v = 1 then (0, [Event.sleepOne, Event.getShutdown iter])
      else
        ((shutdownPollLoop d (iter + 1) fuel).1,
          Event.sleepOne :: Event.getShutdown iter ::
            (shutdownPollLoop d (iter + 1) fuel).2)

/-- shutdownDevice: returns -ENOENT if the shutdown attribute path does not
exist (no write is attempted), -EINVAL if the sysfs_put of "1" fills errmsg,
and otherwise enters the poll loop. -/
def shutdownDevice (d : DevView) : Int × List Event :=
  if d.shutdownExists = false then (-ENOENT, [])
  else if d.shutdownPutFails then (-EINVAL, [Event.putShutdown])
  else
    ((shutdownPollLoop d 0 POLL_TIMEOUT).1,
      Event.putShutdown :: (shutdownPollLoop d 0 POLL_TIMEOUT).2)

/-- removeDevice: one sysfs_put of "1" to the remove attribute; errmsg
non-empty yields -EINVAL, otherwise 0.  The is_userpf flag records which
function (user or management) the write targets. -/
def removeDevice (d : DevView) (is_userpf : Bool) : Int × List Event :=
  if d.removePutFails then (-EINVAL, [Event.putRemove is_userpf])
  else (0, [Event.putRemove is_userpf])

/-- One immediate child entry of a top-level sysfs device directory, as
findXilinxRootPort observes it: whether it is a directory, and for each of
the vendor and device attribute files the token that operator>> would
extract into the string, or none when the file does not exist or no token
can be extracted (in which case the C++ string variable keeps its previous
contents). -/
structure Child where
  isDir : Bool
  vendor : Option String
  device : Option String
  deriving DecidableEq

/-- One top-level entry under SYSFS_PATH (a candidate root port) with its
path and its child entries in enumeration order. -/
structure Bridge where
  path : String
  children : List Child
  deriving DecidableEq

/-- Inner loop of findXilinxRootPort over the children of one candidate
bridge.  vid and did are the current contents of the function-scoped
vendor_id and device_id strings: a child that is not a directory is skipped
without touching them, and a missing or token-less attribute file leaves the
corresponding string unchanged (the source never resets these variables
between children or between bridges).  On a match the bridge path is
returned together with the final string contents; otherwise none and the
final string contents. -/
def scanChildren (bridgePath : String) :
    List Child → String → String → Option String × String × String
  | [], vid, did => (none, vid, did)
  | c :: rest, vid, did =>
    if c.isDir = false then scanChildren bridgePath rest vid did
    else
      let vid2 := c.vendor.getD vid
      let did2 := c.device.getD did
      if vid2 = XILINX_VENDOR ∧ did2 = XILINX_US then (some bridgePath, vid2, did2)
      else scanChildren bridgePath rest vid2 did2

/-- Outer loop of findXilinxRootPort over the top-level entries, threading
the never-reset vendor_id and device_id strings from one bridge to the
next.  Returns the empty string (the default-constructed / reset
rootPortPath) when no bridge yields a match. -/
def findLoop : List Bridge → String → String → String
  | [], _, _ => ""
  | b :: rest, vid, did =>
    match scanChildren b.path b.children vid did with
    | (some p, _, _) => p
    | (none, vid2, did2) => findLoop rest vid2 did2

/-- findXilinxRootPort: the two-level search, started with both identifier
strings default-constructed empty. -/
def findXilinxRootPort (tree : List Bridge) : String :=
  findLoop tree "" ""

/-- Environment of hotplugRescan: the sysfs tree that findXilinxRootPort
walks, plus the outcome of opening the computed path for writing (some e
means the open fails and errno is e) and of the write-and-flush on the
opened stream (some e means the stream is not good afterwards and errno
is e). -/
structure RescanEnv where
  tree : List Bridge
  openErrno : String → Option Nat
  writeErrno : String → Option Nat

/-- The boost::filesystem path operator /= : appending a non-empty component
to an empty path yields just the component, otherwise a separator is
inserted. -/
def pathAppend (p s : String) : String :=
  if p = "" then s else p ++ "/" ++ s

/-- hotplugRescan: computes findXilinxRootPort(), appends "rescan" to it,
and only then tests the result for emptiness (so the -ENOENT branch is
checked on the already-appended path, exactly as in the source); then opens
the path for writing, writes 1 and flushes, returning -errno on an open
failure or a not-good stream and 0 otherwise. -/
def hotplugRescan (env : RescanEnv) : Int × List Event :=
  if pathAppend (findXilinxRootPort env.tree) "rescan" = "" then (-ENOENT, [])
  else
    match env.openErrno (pathAppend (findXilinxRootPort env.tree) "rescan") with
    | some e => (-(e : Int), [Event.openAttr (pathAppend (findXilinxRootPort env.tree) "rescan")])
    | none =>
      match env.writeErrno (pathAppend (findXilinxRootPort env.tree) "rescan") with
      | some e =>
        (-(e : Int),
          [Event.openAttr (pathAppend (findXilinxRootPort env.tree) "rescan"),
           Event.putRescan (pathAppend (findXilinxRootPort env.tree) "rescan")])
      | none =>
        (0,
          [Event.openAttr (pathAppend (findXilinxRootPort env.tree) "rescan"),
           Event.putRescan (pathAppend (findXilinxRootPort env.tree) "rescan")])

/-- A token is treated as an option by getopt_long when it starts with a
dash and is not the lone dash. -/
def isOptionTok (t : String) : Bool :=
  match t.data with
  | [] => false
  | c :: rest => c = '-' && !(rest = [])

/-- Result of the getopt_long argument loop of hotplugHandler: either an
early return with a code (-EINVAL from the default branch or a missing
required argument, -ENOENT from a bdf2index failure on the offline
argument), or the parsed request: the resolved device index when the
offline switch was seen (isRemove), and whether the online switch was seen
(isRescan). -/
inductive ParseOut
  | err (code : Int)
  | ok (offline : Option Nat) (isRescan : Bool)
  deriving DecidableEq

/-- The getopt_long loop of hotplugHandler over the argument tokens after
the command name.  GNU getopt_long permutes non-option words past the
options, so they are skipped and scanning continues; the token made of two
dashes ends option scanning; the token of the offline switch consumes the
next token as its required argument (a missing argument is the
question-mark result, hence the default branch and -EINVAL); the resolved
index overwrites any earlier one; any other option token is unrecognized
and hits the default branch.  Long-option abbreviations and the
equals-sign argument form are not modelled. -/
def parseLoop (b2i : String → Option Nat) :
    List String → Option Nat → Bool → ParseOut
  | [], idx, rescan => ParseOut.ok idx rescan
  | t :: rest, idx, rescan =>
    if t = "--" then ParseOut.ok idx rescan
    else if t = "--online" then parseLoop b2i rest idx true
    else if t = "--offline" then
      match rest with
      | [] => ParseOut.err (-EINVAL)
      | a :: rest2 =>
        match b2i a with
        | none => ParseOut.err (-ENOENT)
        | some i => parseLoop b2i rest2 (some i) rescan
    else if isOptionTok t then ParseOut.err (-EINVAL)
    else parseLoop b2i rest idx rescan

/-- Environment of hotplugHandler: the argument tokens after the command
name (so the argc < 2 early return corresponds to an empty list), the
bdf2index collaborator (none models the UINT_MAX failure), the outcome of
the confirmation prompt, the device views that pcidev::get_dev resolves for
the user and the management function of the requested index, and the
environment of the online path. -/
structure HandlerEnv where
  args : List String
  bdf2index : String → Option Nat
  canProceed : Bool
  devUser : DevView
  devMgmt : DevView
  rescanEnv : RescanEnv

/-- pcidev::get_dev for the one resolved index: the user or the management
function view. -/
def getDev (env : HandlerEnv) (is_userpf : Bool) : DevView :=
  if is_userpf then env.devUser else env.devMgmt

/-- The isRescan tail of hotplugHandler: when the online switch was seen,
run hotplugRescan and return its code (the source returns ret whether or
not it is 0), appending its effects to those already performed; otherwise
return the current ret, which is 0 on every path that reaches this point. -/
def onlinePart (env : HandlerEnv) (tr : List Event) (isRescan : Bool) :
    Int × List Event :=
  if isRescan then
    ((hotplugRescan env.rescanEnv).1, tr ++ (hotplugRescan env.rescanEnv).2)
  else (0, tr)

/-- The isRemove block of hotplugHandler followed by the isRescan tail:
shutdown the user function; on -ENOENT return 0 at once (the INFO no-op
path, which also skips the isRescan tail), on any other failure return
-EINVAL; then remove the user function and on failure return its code;
then remove the management function and on failure return its code; then
fall through to the isRescan tail. -/
def offlineThenOnline (env : HandlerEnv) (isRescan : Bool) : Int × List Event :=
  if (shutdownDevice (getDev env true)).1 ≠ 0 then
    if (shutdownDevice (getDev env true)).1 = -ENOENT then
      (0, (shutdownDevice (getDev env true)).2)
    else (-EINVAL, (shutdownDevice (getDev env true)).2)
  else if (removeDevice (getDev env true) true).1 ≠ 0 then
    ((removeDevice (getDev env true) true).1,
      (shutdownDevice (getDev env true)).2 ++ (removeDevice (getDev env true) true).2)
  else if (removeDevice (getDev env false) false).1 ≠ 0 then
    ((removeDevice (getDev env false) false).1,
      (shutdownDevice (getDev env true)).2 ++ (removeDevice (getDev env true) true).2
        ++ (removeDevice (getDev env false) false).2)
  else
    onlinePart env
      ((shutdownDevice (getDev env true)).2 ++ (removeDevice (getDev env true) true).2
        ++ (removeDevice (getDev env false) false).2) isRescan

/-- hotplugHandler: argc < 2 is -EINVAL; then the getopt_long loop, whose
early returns propagate; then the confirmation prompt (-ECANCELED when the
operator declines); then the isRemove block when the offline switch was
seen, and the isRescan tail.  The sudoOrDie privilege gate and all printing
are external and not modelled. -/
def hotplugHandler (env : HandlerEnv) : Int × List Event :=
  if env.args = [] then (-EINVAL, [])
  else
    match parseLoop env.bdf2index env.args none false with
    | ParseOut.err c => (c, [])
    | ParseOut.ok none isRescan =>
      if env.canProceed = false then (-ECANCELED, [])
      else onlinePart env [] isRescan
    | ParseOut.ok (some _) isRescan =>
      if env.canProceed = false then (-ECANCELED, [])
      else offlineThenOnline env isRescan

/-! Concrete devices, trees and environments used to instantiate the claims. -/

/-- A device whose shutdown status reads 1 on the first poll and whose
remove writes succeed. -/
def devFirstPoll : DevView :=
  { shutdownExists := true, shutdownPutFails := false,
    shutdownGet := fun _ => ReadRes.ok 1, removePutFails := false }

/-- A device whose shutdown status reads 0 on every poll. -/
def devStuck : DevView :=
  { shutdownExists := true, shutdownPutFails := false,
    shutdownGet := fun _ => ReadRes.ok 0, removePutFails := false }

/-- A device whose shutdown attribute path does not exist. -/
def devAbsent : DevView :=
  { shutdownExists := false, shutdownPutFails := false,
    shutdownGet := fun _ => ReadRes.ok 0, removePutFails := false }

/-- A device that shuts down on the first poll but whose remove write
fills errmsg. -/
def devRemoveFail : DevView :=
  { shutdownExists := true, shutdownPutFails := false,
    shutdownGet := fun _ => ReadRes.ok 1, removePutFails := true }

/-- An empty sysfs tree together with an open of the leftover relative
path that fails with errno ENOENT. -/
def rescanCwd : RescanEnv :=
  { tree := [], openErrno := fun _ => some 2, writeErrno := fun _ => none }

/-- An empty sysfs tree together with an open of the leftover relative
path that happens to succeed (a file named rescan in the working
directory). -/
def rescanCwdOpenOk : RescanEnv :=
  { tree := [], openErrno := fun _ => none, writeErrno := fun _ => none }

/-- A tree with one bridge whose child carries the accelerator identity
pair, all attributes readable, opens succeeding. -/
def treeMatch : List Bridge :=
  [{ path := "/sys/bus/pci/devices/0000:16", children :=
      [{ isDir := true, vendor := some "0x10ee", device := some "0x9134" }] }]

/-- The online environment over treeMatch with all stream operations
succeeding. -/
def rescanGood : RescanEnv :=
  { tree := treeMatch, openErrno := fun _ => none, writeErrno := fun _ => none }

/-- Two bridges: the first has a child matching on vendor only; the child
of the second has no readable vendor attribute and matches on device
only. -/
def treeStaleAcross : List Bridge :=
  [{ path := "/sys/bus/pci/devices/0000:16", children :=
      [{ isDir := true, vendor := some "0x10ee", device := some "0x1111" }] },
   { path := "/sys/bus/pci/devices/0000:64", children :=
      [{ isDir := true, vendor := none, device := some "0x9134" }] }]

/-- One bridge with two children: the first matches on vendor only, the
second has no readable vendor attribute and matches on device only. -/
def treeStaleWithin : List Bridge :=
  [{ path := "/sys/bus/pci/devices/0000:16", children :=
      [{ isDir := true, vendor := some "0x10ee", device := some "0x1111" },
       { isDir := true, vendor := none, device := some "0x9134" }] }]

/-- One bridge whose first child has neither attribute readable and whose
second child carries the full accelerator identity pair. -/
def treeSkipUnreadable : List Bridge :=
  [{ path := "/sys/bus/pci/devices/0000:16", children :=
      [{ isDir := true, vendor := none, device := none },
       { isDir := true, vendor := some "0x10ee", device := some "0x9134" }] }]

/-- Offline request against a device that never reports shutdown. -/
def envTimeout : HandlerEnv :=
  { args := ["--offline", "0000:65:00.1"], bdf2index := fun _ => some 1,
    canProceed := true, devUser := devStuck, devMgmt := devStuck,
    rescanEnv := rescanCwd }

/-- Offline request against a device whose shutdown attribute is absent. -/
def envAbsent : HandlerEnv :=
  { args := ["--offline", "0000:65:00.1"], bdf2index := fun _ => some 1,
    canProceed := true, devUser := devAbsent, devMgmt := devAbsent,
    rescanEnv := rescanCwd }

/-- Offline request where shutdown succeeds at once but the user-function
remove write fails. -/
def envRemoveFail : HandlerEnv :=
  { args := ["--offline", "0000:65:00.1"], bdf2index := fun _ => some 1,
    canProceed := true, devUser := devRemoveFail, devMgmt := devFirstPoll,
    rescanEnv := rescanCwd }

/-- Offline and online requested together, the device entry absent, the
online environment holding a perfectly discoverable root port. -/
def envBothAbsent : HandlerEnv :=
  { args := ["--offline", "0000:65:00.1", "--online"], bdf2index := fun _ => some 1,
    canProceed := true, devUser := devAbsent, devMgmt := devAbsent,
    rescanEnv := rescanGood }

/-- Offline and online requested together with everything succeeding. -/
def envBothOk : HandlerEnv :=
  { args := ["--offline", "0000:65:00.1", "--online"], bdf2index := fun _ => some 1,
    canProceed := true, devUser := devFirstPoll, devMgmt := devFirstPoll,
    rescanEnv := rescanGood }

/-- An invocation whose only argument is a non-option word. -/
def envJunk : HandlerEnv :=
  { args := ["junk"], bdf2index := fun _ => some 1,
    canProceed := true, devUser := devFirstPoll, devMgmt := devFirstPoll,
    rescanEnv := rescanCwd }

/-- An invocation with no argument tokens at all (argc below 2). -/
def envNoArgs : HandlerEnv :=
  { args := [], bdf2index := fun _ => some 1,
    canProceed := true, devUser := devFirstPoll, devMgmt := devFirstPoll,
    rescanEnv := rescanCwd }

/-! Helper lemmas about the embedded functions. -/

/-- removeDevice performs exactly the one remove write, whatever its
outcome. -/
theorem removeDevice_snd (d : DevView) (b : Bool) :
    (removeDevice d b).2 = [Event.putRemove b] := by
  unfold removeDevice
  split <;> rfl

/-- The poll loop performs no remove write. -/
theorem putRemove_not_mem_poll (d : DevView) (b : Bool) :
    ∀ fuel iter, Event.putRemove b ∉ (shutdownPollLoop d iter fuel).2 := by
  intro fuel
  induction fuel with
  | zero =>
    intro iter
    simp [shutdownPollLoop]
  | succ n ih =>
    intro iter
    unfold shutdownPollLoop
    cases hg : d.shutdownGet iter with
    | err => simp
    | ok v =>
      by_cases hv : v = 1
      · simp [hv]
      · simp only [if_neg hv]
        intro hmem
        rcases List.mem_cons.mp hmem with h | h
        · exact Event.noConfusion h
        · rcases List.mem_cons.mp h with h2 | h2
          · exact Event.noConfusion h2
          · exact ih (iter + 1) h2

/-- shutdownDevice performs no remove write on any path. -/
theorem putRemove_not_mem_shutdown (d : DevView) (b : Bool) :
    Event.putRemove b ∉ (shutdownDevice d).2 := by
  unfold shutdownDevice
  split
  · simp
  · split
    · simp
    · intro h
      rcases List.mem_cons.mp h with h1 | h1
      · exact Event.noConfusion h1
      · exact putRemove_not_mem_poll d b POLL_TIMEOUT 0 h1

/-- If every remaining poll read succeeds with a value other than 1, the
poll loop exhausts its budget and returns -ETIMEDOUT. -/
theorem shutdownPollLoop_timeout (d : DevView) :
    ∀ fuel iter,
      (∀ k, iter ≤ k → k < iter + fuel →
        ∃ v, d.shutdownGet k = ReadRes.ok v ∧ v ≠ 1) →
      (shutdownPollLoop d iter fuel).1 = -ETIMEDOUT := by
  intro fuel
  induction fuel with
  | zero =>
    intro iter _
    rfl
  | succ n ih =>
    intro iter h
    obtain ⟨v, hv, hv1⟩ := h iter le_rfl (by omega)
    unfold shutdownPollLoop
    rw [hv]
    simp only [if_neg hv1]
    exact ih (iter + 1) (fun k hk1 hk2 => h k (by omega) (by omega))

/-- If every poll read of the 60-iteration budget succeeds with a value
other than 1, shutdownDevice returns -ETIMEDOUT. -/
theorem shutdownDevice_timeout (d : DevView)
    (hex : d.shutdownExists = true) (hput : d.shutdownPutFails = false)
    (h : ∀ k, k < POLL_TIMEOUT → ∃ v, d.shutdownGet k = ReadRes.ok v ∧ v ≠ 1) :
    (shutdownDevice d).1 = -ETIMEDOUT := by
  unfold shutdownDevice
  rw [hex, hput]
  simp only [Bool.true_eq_false, if_false]
  exact shutdownPollLoop_timeout d POLL_TIMEOUT 0 (fun k _ hk2 => h k (by omega))

/-- A poll read of 1 on the current iteration ends the loop at once with
success and exactly one sleep and one read. -/
theorem shutdownPollLoop_first (d : DevView) (iter fuel : Nat)
    (hget : d.shutdownGet iter = ReadRes.ok 1) :
    shutdownPollLoop d iter (fuel + 1) =
      (0, [Event.sleepOne, Event.getShutdown iter]) := by
  unfold shutdownPollLoop
  rw [hget]
  simp

/-- When the argument loop resolved an offline index and the operator
confirmed, hotplugHandler runs the offline block followed by the online
tail. -/
theorem hotplugHandler_offline (env : HandlerEnv) (i : Nat) (r : Bool)
    (hargs : env.args ≠ [])
    (hp : parseLoop env.bdf2index env.args none false = ParseOut.ok (some i) r)
    (hc : env.canProceed = true) :
    hotplugHandler env = offlineThenOnline env r := by
  unfold hotplugHandler
  rw [if_neg hargs, hp, hc]
  simp

/-- A shutdown failure other than -ENOENT makes the offline block return
-EINVAL with only the shutdown effects performed. -/
theorem offline_shutdown_fail (env : HandlerEnv) (r : Bool)
    (hf : (shutdownDevice (getDev env true)).1 ≠ 0)
    (hne : (shutdownDevice (getDev env true)).1 ≠ -ENOENT) :
    offlineThenOnline env r = (-EINVAL, (shutdownDevice (getDev env true)).2) := by
  unfold offlineThenOnline
  rw [if_pos hf, if_neg hne]

/-- A shutdown failure of exactly -ENOENT makes the offline block return 0
with only the shutdown effects performed, skipping the online tail. -/
theorem offline_shutdown_enoent (env : HandlerEnv) (r : Bool)
    (h : (shutdownDevice (getDev env true)).1 = -ENOENT) :
    offlineThenOnline env r = (0, (shutdownDevice (getDev env true)).2) := by
  unfold offlineThenOnline
  rw [if_pos (by rw [h]; decide), if_pos h]

/-! The claims. -/

/-- C1: the claim says that when the root-port locator returns an empty
path, rescan fails with NotFound and never attempts to open any attribute
for writing.  The code appends the rescan component to the located path
before testing it for emptiness, so the test never fires: on an empty
locator result the code opens the relative path rescan in the working
directory, returning -ENOENT only because that open happens to fail with
errno 2, and even returning 0 after writing to the file when such a file
exists.  This theorem evaluates both behaviors at the failing input. -/
theorem C1_rescan_opens_despite_empty_locator :
    findXilinxRootPort rescanCwd.tree = "" ∧
    hotplugRescan rescanCwd = (-ENOENT, [Event.openAttr "rescan"]) ∧
    hotplugRescan rescanCwdOpenOk =
      (0, [Event.openAttr "rescan", Event.putRescan "rescan"]) := by
  decide

/-- C2: the claim says a bridge is returned only when one of its children
matches on both identifiers.  Because the source never resets the
vendor_id and device_id strings between children or bridges, a child whose
vendor attribute is unreadable inherits the vendor value of an earlier
child of another bridge: in treeStaleAcross no child of any bridge matches
on both identifiers, yet the second bridge is returned. -/
theorem C2_match_uses_stale_vendor :
    findXilinxRootPort treeStaleAcross = "/sys/bus/pci/devices/0000:64" ∧
    (treeStaleAcross.all fun b => b.children.all fun c =>
      !(c.vendor == some XILINX_VENDOR && c.device == some XILINX_US)) = true := by
  decide

/-- C3: if every one of the 60 poll reads succeeds with a status other
than 1, shutdownDevice returns -ETIMEDOUT, and the handler performs no
remove write for either function in that invocation. -/
theorem C3_timeout_and_no_remove (env : HandlerEnv) (i : Nat) (r : Bool)
    (hargs : env.args ≠ [])
    (hp : parseLoop env.bdf2index env.args none false = ParseOut.ok (some i) r)
    (hc : env.canProceed = true)
    (hex : (getDev env true).shutdownExists = true)
    (hput : (getDev env true).shutdownPutFails = false)
    (hget : ∀ k, k < POLL_TIMEOUT →
      ∃ v, (getDev env true).shutdownGet k = ReadRes.ok v ∧ v ≠ 1) :
    (shutdownDevice (getDev env true)).1 = -ETIMEDOUT ∧
      ∀ b, Event.putRemove b ∉ (hotplugHandler env).2 := by
  have hto := shutdownDevice_timeout _ hex hput hget
  have hun := hotplugHandler_offline env i r hargs hp hc
  have hoff := offline_shutdown_fail env r (by rw [hto]; decide) (by rw [hto]; decide)
  refine ⟨hto, fun b => ?_⟩
  rw [hun, hoff]
  exact putRemove_not_mem_shutdown _ b

/-- Witness for C3 at a concrete stuck device. -/
theorem C3_witness :
    (shutdownDevice (getDev envTimeout true)).1 = -ETIMEDOUT ∧
    Event.putRemove true ∉ (hotplugHandler envTimeout).2 ∧
    Event.putRemove false ∉ (hotplugHandler envTimeout).2 := by
  have h := C3_timeout_and_no_remove envTimeout 1 false (by decide) (by decide)
    (by decide) (by decide) (by decide) (fun k _ => ⟨0, rfl, by decide⟩)
  exact ⟨h.1, h.2 true, h.2 false⟩

/-- C4: the claim says that when the offline shutdown exceeds its poll
budget the surfaced process result code is the timed-out code.  In fact
the handler maps every shutdown failure other than -ENOENT to -EINVAL,
so a timed-out shutdown surfaces as -EINVAL, not -ETIMEDOUT: at a device
that never reports shutdown, the inner call returns -ETIMEDOUT but the
handler returns -EINVAL. -/
theorem C4_counterexample :
    (shutdownDevice (getDev envTimeout true)).1 = -ETIMEDOUT ∧
    (hotplugHandler envTimeout).1 = -EINVAL ∧
    (-EINVAL : Int) ≠ -ETIMEDOUT := by
  decide

/-- C4 amended: when the offline shutdown exceeds the poll budget, the
surfaced process result code is the generic invalid-operation code
-EINVAL; the timed-out code exists only inside the Shutdown Controller. -/
theorem C4_amended_timeout_surfaces_as_invalid (env : HandlerEnv) (i : Nat) (r : Bool)
    (hargs : env.args ≠ [])
    (hp : parseLoop env.bdf2index env.args none false = ParseOut.ok (some i) r)
    (hc : env.canProceed = true)
    (hex : (getDev env true).shutdownExists = true)
    (hput : (getDev env true).shutdownPutFails = false)
    (hget : ∀ k, k < POLL_TIMEOUT →
      ∃ v, (getDev env true).shutdownGet k = ReadRes.ok v ∧ v ≠ 1) :
    (hotplugHandler env).1 = -EINVAL := by
  have hto := shutdownDevice_timeout _ hex hput hget
  have hun := hotplugHandler_offline env i r hargs hp hc
  rw [hun, offline_shutdown_fail env r (by rw [hto]; decide) (by rw [hto]; decide)]

/-- Witness for the amended C4 at a concrete stuck device. -/
theorem C4_amended_witness :
    (hotplugHandler envTimeout).1 = -EINVAL :=
  C4_amended_timeout_surfaces_as_invalid envTimeout 1 false (by decide) (by decide)
    (by decide) (by decide) (by decide) (fun k _ => ⟨0, rfl, by decide⟩)

/-- C5: when the shutdown attribute of the device is absent,
shutdownDevice returns -ENOENT and the handler reports overall success
with an empty effect trace, so neither remove write is performed. -/
theorem C5_notfound_is_success_noop (env : HandlerEnv) (i : Nat) (r : Bool)
    (hargs : env.args ≠ [])
    (hp : parseLoop env.bdf2index env.args none false = ParseOut.ok (some i) r)
    (hc : env.canProceed = true)
    (hex : (getDev env true).shutdownExists = false) :
    (shutdownDevice (getDev env true)).1 = -ENOENT ∧
      hotplugHandler env = (0, []) := by
  have hsd : shutdownDevice (getDev env true) = (-ENOENT, []) := by
    unfold shutdownDevice
    rw [hex]
    simp
  have hun := hotplugHandler_offline env i r hargs hp hc
  have hen := offline_shutdown_enoent env r (by rw [hsd])
  constructor
  · rw [hsd]
  · rw [hun, hen, hsd]

/-- Witness for C5 at a concrete absent device. -/
theorem C5_witness :
    (shutdownDevice (getDev envAbsent true)).1 = -ENOENT ∧
      hotplugHandler envAbsent = (0, []) :=
  C5_notfound_is_success_noop envAbsent 1 false (by decide) (by decide)
    (by decide) (by decide)

/-- C6: whenever the offline path reaches the removal stage, the remove
write of the user function comes directly after the shutdown effects,
which contain no remove write, so it strictly precedes any remove write of
the management function; and when the user-function remove fails, the
handler returns its code with no management remove performed. -/
theorem C6_remove_user_before_mgmt (env : HandlerEnv) (i : Nat) (r : Bool)
    (hargs : env.args ≠ [])
    (hp : parseLoop env.bdf2index env.args none false = ParseOut.ok (some i) r)
    (hc : env.canProceed = true)
    (hsh : (shutdownDevice (getDev env true)).1 = 0) :
    (∃ rest, (hotplugHandler env).2 =
      (shutdownDevice (getDev env true)).2 ++ Event.putRemove true :: rest) ∧
    Event.putRemove false ∉ (shutdownDevice (getDev env true)).2 ∧
    ((removeDevice (getDev env true) true).1 ≠ 0 →
      hotplugHandler env =
        ((removeDevice (getDev env true) true).1,
          (shutdownDevice (getDev env true)).2 ++ [Event.putRemove true])) := by
  have hun := hotplugHandler_offline env i r hargs hp hc
  have hnf : ¬ (shutdownDevice (getDev env true)).1 ≠ 0 := by rw [hsh]; simp
  refine ⟨?_, putRemove_not_mem_shutdown _ false, ?_⟩
  · rw [hun]
    unfold offlineThenOnline
    rw [if_neg hnf]
    by_cases h1 : (removeDevice (getDev env true) true).1 ≠ 0
    · rw [if_pos h1, removeDevice_snd]
      exact ⟨[], by simp⟩
    · rw [if_neg h1]
      by_cases h2 : (removeDevice (getDev env false) false).1 ≠ 0
      · rw [if_pos h2, removeDevice_snd, removeDevice_snd]
        exact ⟨[Event.putRemove false], by simp⟩
      · rw [if_neg h2]
        unfold onlinePart
        rw [removeDevice_snd, removeDevice_snd]
        cases r
        · exact ⟨[Event.putRemove false], by simp⟩
        · exact ⟨Event.putRemove false :: (hotplugRescan env.rescanEnv).2, by simp⟩
  · intro h1
    rw [hun]
    unfold offlineThenOnline
    rw [if_neg hnf, if_pos h1, removeDevice_snd]

/-- Witness for C6 at a concrete device whose user-function remove write
fails. -/
theorem C6_witness :
    hotplugHandler envRemoveFail =
      (-EINVAL, (shutdownDevice (getDev envRemoveFail true)).2 ++ [Event.putRemove true]) ∧
    Event.putRemove false ∉ (shutdownDevice (getDev envRemoveFail true)).2 := by
  have h := C6_remove_user_before_mgmt envRemoveFail 1 false (by decide) (by decide)
    (by decide) (by decide)
  refine ⟨?_, h.2.1⟩
  have h3 := h.2.2 (by decide)
  have h4 : (removeDevice (getDev envRemoveFail true) true).1 = -EINVAL := by decide
  rw [h3, h4]

/-- C7: when the first poll read of the shutdown status yields exactly 1,
shutdownDevice returns success with exactly one shutdown write, one sleep
and one status read as its whole effect trace. -/
theorem C7_first_poll_success (d : DevView)
    (hex : d.shutdownExists = true) (hput : d.shutdownPutFails = false)
    (hget : d.shutdownGet 0 = ReadRes.ok 1) :
    shutdownDevice d =
      (0, [Event.putShutdown, Event.sleepOne, Event.getShutdown 0]) := by
  unfold shutdownDevice
  rw [hex, hput, show POLL_TIMEOUT = 59 + 1 from rfl,
    shutdownPollLoop_first d 0 59 hget]
  simp

/-- Witness for C7 at a concrete device answering 1 on the first poll. -/
theorem C7_witness :
    shutdownDevice devFirstPoll =
      (0, [Event.putShutdown, Event.sleepOne, Event.getShutdown 0]) :=
  C7_first_poll_success devFirstPoll (by decide) (by decide) rfl

/-- C8: the claim says the locator returns empty when no bridge has a
child matching both identifiers, and that an unreadable attribute is
treated as a plain non-match.  The never-reset identifier strings break
the first part even inside a single bridge: in treeStaleWithin no child
matches on both identifiers, yet the bridge is returned (the second child
inherits the vendor read from the first).  The last conjunct shows the
part of the claim the code does honor: an entirely unreadable child does
not abort the scan of its sibling, which is still found. -/
theorem C8_stale_match_within_bridge :
    findXilinxRootPort treeStaleWithin = "/sys/bus/pci/devices/0000:16" ∧
    (treeStaleWithin.all fun b => b.children.all fun c =>
      !(c.vendor == some XILINX_VENDOR && c.device == some XILINX_US)) = true ∧
    "/sys/bus/pci/devices/0000:16" ≠ "" ∧
    findXilinxRootPort treeSkipUnreadable = "/sys/bus/pci/devices/0000:16" := by
  decide

/-- C9: the claim says the online path still executes whenever the
offline path concludes with overall success, including the
NotFound-on-shutdown case.  In that case the handler in fact returns 0
at once: with both switches given and the device entry absent, the
result is success with an empty effect trace, so no rescan open or write
was attempted even though the online environment held a discoverable
root port. -/
theorem C9_counterexample :
    parseLoop envBothAbsent.bdf2index envBothAbsent.args none false =
      ParseOut.ok (some 1) true ∧
    (shutdownDevice (getDev envBothAbsent true)).1 = -ENOENT ∧
    hotplugHandler envBothAbsent = (0, []) := by
  decide

/-- C9 amended: with both switches requested the two paths run
sequentially, offline strictly before online; when the offline path
concludes successfully through the normal route (shutdown reported done
and both removes succeeded) the online tail still executes, its effects
after all offline effects; but when the offline path concludes through
the NotFound-on-shutdown no-op route, the handler returns success
immediately and the online path is skipped. -/
theorem C9_amended_online_after_normal_offline (env : HandlerEnv) (i : Nat)
    (hargs : env.args ≠ [])
    (hp : parseLoop env.bdf2index env.args none false = ParseOut.ok (some i) true)
    (hc : env.canProceed = true) :
    ((getDev env true).shutdownExists = false → hotplugHandler env = (0, [])) ∧
    ((shutdownDevice (getDev env true)).1 = 0 →
      (removeDevice (getDev env true) true).1 = 0 →
      (removeDevice (getDev env false) false).1 = 0 →
      hotplugHandler env =
        ((hotplugRescan env.rescanEnv).1,
          (shutdownDevice (getDev env true)).2
            ++ [Event.putRemove true, Event.putRemove false]
            ++ (hotplugRescan env.rescanEnv).2)) := by
  have hun := hotplugHandler_offline env i true hargs hp hc
  constructor
  · intro hex
    have hsd : shutdownDevice (getDev env true) = (-ENOENT, []) := by
      unfold shutdownDevice
      rw [hex]
      simp
    rw [hun, offline_shutdown_enoent env true (by rw [hsd]), hsd]
  · intro hsh h1 h2
    rw [hun]
    unfold offlineThenOnline
    rw [if_neg (by rw [hsh]; simp), if_neg (by rw [h1]; simp),
      if_neg (by rw [h2]; simp)]
    unfold onlinePart
    rw [if_pos rfl, removeDevice_snd, removeDevice_snd]
    simp

/-- Witness for the amended C9 at a concrete fully succeeding
invocation. -/
theorem C9_witness :
    hotplugHandler envBothOk =
      ((hotplugRescan envBothOk.rescanEnv).1,
        (shutdownDevice (getDev envBothOk true)).2
          ++ [Event.putRemove true, Event.putRemove false]
          ++ (hotplugRescan envBothOk.rescanEnv).2) :=
  (C9_amended_online_after_normal_offline envBothOk 1 (by decide) (by decide)
    (by decide)).2 (by decide) (by decide) (by decide)

/-- C10: the claim says every invocation whose arguments contain no
recognized switch is rejected with an invalid-argument result.  An
invocation whose only argument is a non-option word is not: getopt_long
skips it, neither switch is set, and after the confirmation the handler
returns 0 having performed nothing. -/
theorem C10_counterexample :
    parseLoop envJunk.bdf2index envJunk.args none false = ParseOut.ok none false ∧
    hotplugHandler envJunk = (0, []) ∧
    (0 : Int) ≠ -EINVAL := by
  decide

/-- C10 amended: an invocation with no arguments at all is rejected with
-EINVAL; an invocation whose argument loop ends in an early error
(an unrecognized option switch, a missing or unresolvable offline
argument) returns that error; in both cases nothing is performed.  An
invocation whose arguments parse to no recognized switch, however, is
not rejected: it performs no shutdown, remove or rescan and reports
success, or -ECANCELED when the operator declines. -/
theorem C10_amended_rejection (env : HandlerEnv) (c : Int) :
    (env.args = [] → hotplugHandler env = (-EINVAL, [])) ∧
    (parseLoop env.bdf2index env.args none false = ParseOut.err c →
      env.args ≠ [] → hotplugHandler env = (c, [])) ∧
    (parseLoop env.bdf2index env.args none false = ParseOut.ok none false →
      env.args ≠ [] →
      hotplugHandler env =
        ((if env.canProceed = true then 0 else -ECANCELED), [])) := by
  refine ⟨?_, ?_, ?_⟩
  · intro h
    unfold hotplugHandler
    rw [if_pos h]
  · intro hp hargs
    unfold hotplugHandler
    rw [if_neg hargs, hp]
  · intro hp hargs
    unfold hotplugHandler
    rw [if_neg hargs, hp]
    cases hcp : env.canProceed
    · simp [hcp]
    · simp [hcp, onlinePart]

/-- Witness for the amended C10: the empty invocation is rejected and the
junk-word invocation reports success with nothing performed. -/
theorem C10_witness :
    hotplugHandler envNoArgs = (-EINVAL, []) ∧
    hotplugHandler envJunk = (0, []) := by
  refine ⟨(C10_amended_rejection envNoArgs 0).1 rfl, ?_⟩
  have h := (C10_amended_rejection envJunk 0).2.2 (by decide) (by decide)
  simpa using h

end Hotplug

